import Mathlib

/-!
Shallow embedding of the MAVSDK offboard-control example programs
(offboard_velocity.cpp, offboard_velocity_working.cpp,
offboard_attitude_control.cpp, offboard_vision.cpp,
offboard_telemetry_health.cpp, offboard_read_blocking.cpp).

Each program is modelled as a pure function from the results that the
external MAVSDK library calls return (oracle parameters, one per library
call whose result the program can observe) to the trace of externally
visible events the program performs, together with its outcome (return
value, or process exit via `exit(EXIT_FAILURE)`).

Floating-point constants in the sources are exactly mirrored as rationals;
no claim below depends on float rounding.  The MAVSDK result enums are
modelled with representative subsets of their codes (every example only
ever compares a result against `Success`).
-/

namespace Mavsdk

/-- Representative subset of MAVSDK `ConnectionResult` codes. -/
inductive ConnectionResult
  | Success
  | Timeout
  | SocketError
deriving DecidableEq, Fintype

/-- Representative subset of MAVSDK `Action::Result` codes. -/
inductive ActionResult
  | Unknown
  | Success
  | CommandDenied
  | Timeout
deriving DecidableEq, Fintype

/-- The MAVSDK `Offboard::Result` codes. -/
inductive OffboardResult
  | Unknown
  | Success
  | NoSystem
  | ConnectionError
  | Busy
  | CommandDenied
  | Timeout
  | NoSetpointSet
deriving DecidableEq, Fintype

/-- Representative subset of MAVSDK `Mocap::Result` codes. -/
inductive MocapResult
  | Unknown
  | Success
  | NoSystem
  | InvalidRequestData
deriving DecidableEq, Fintype

/-- A float value: either NaN or an exact rational (covariance entries use NAN). -/
inductive FloatVal
  | nan
  | val (x : ℚ)
deriving DecidableEq

/-- MAVSDK `Offboard::Attitude`; `{}` value-initializes every field to 0. -/
structure Attitude where
  roll_deg : ℚ := 0
  pitch_deg : ℚ := 0
  yaw_deg : ℚ := 0
  thrust_value : ℚ := 0
deriving DecidableEq

/-- MAVSDK `Offboard::VelocityNedYaw`; `{}` value-initializes every field to 0. -/
structure VelocityNedYaw where
  north_m_s : ℚ := 0
  east_m_s : ℚ := 0
  down_m_s : ℚ := 0
  yaw_deg : ℚ := 0
deriving DecidableEq

/-- MAVSDK `Offboard::VelocityBodyYawspeed`; `{}` value-initializes every field to 0. -/
structure VelocityBodyYawspeed where
  forward_m_s : ℚ := 0
  right_m_s : ℚ := 0
  down_m_s : ℚ := 0
  yawspeed_deg_s : ℚ := 0
deriving DecidableEq

/-- MAVSDK `Offboard::PositionNedYaw`; `{}` value-initializes every field to 0. -/
structure PositionNedYaw where
  north_m : ℚ := 0
  east_m : ℚ := 0
  down_m : ℚ := 0
  yaw_deg : ℚ := 0
deriving DecidableEq

/-- MAVSDK `Mocap::PositionBody`. -/
structure PositionBody where
  x_m : ℚ := 0
  y_m : ℚ := 0
  z_m : ℚ := 0
deriving DecidableEq

/-- MAVSDK `Mocap::Quaternion`. -/
structure Quaternion where
  w : ℚ := 0
  x : ℚ := 0
  y : ℚ := 0
  z : ℚ := 0
deriving DecidableEq

/-- MAVSDK `Mocap::AngleBody`. -/
structure AngleBody where
  roll_rad : ℚ := 0
  pitch_rad : ℚ := 0
  yaw_rad : ℚ := 0
deriving DecidableEq

/-- MAVSDK `Mocap::Covariance` (a dynamically sized float vector, default empty). -/
structure Covariance where
  covariance_matrix : List FloatVal := []
deriving DecidableEq

/-- MAVSDK `Mocap::AttitudePositionMocap`. -/
structure AttitudePositionMocap where
  time_usec : Nat := 0
  q : Quaternion := {}
  position_body : PositionBody := {}
  pose_covariance : Covariance := {}
deriving DecidableEq

/-- MAVSDK `Mocap::VisionPositionEstimate`. -/
structure VisionPositionEstimate where
  time_usec : Nat := 0
  position_body : PositionBody := {}
  angle_body : AngleBody := {}
  pose_covariance : Covariance := {}
deriving DecidableEq

/-- Externally visible events an example program performs, in order. -/
inductive Event
  | log (msg : String)
  | usage
  | addAnyConnection (r : ConnectionResult)
  | waitUntilDiscover
  | discoverAttempt (found : Bool)
  | pluginInit (plugin : String)
  | setAttitude (a : Attitude)
  | setVelocityNed (v : VelocityNedYaw)
  | setVelocityBody (v : VelocityBodyYawspeed)
  | setPositionNed (p : PositionNedYaw)
  | offboardStart (r : OffboardResult)
  | offboardStop (r : OffboardResult)
  | arm (r : ActionResult)
  | disarm (r : ActionResult)
  | takeoff (r : ActionResult)
  | land (r : ActionResult)
  | kill (r : ActionResult)
  | mocapSend (m : AttitudePositionMocap) (r : MocapResult)
  | visionSend (m : VisionPositionEstimate) (r : MocapResult)
  | telemetryRead (channel : String)
  | subscribeTelemetry (channel : String)
  | sleep (ms : Nat)
deriving DecidableEq

/-- Outcome of a function: a normal return, or process exit with a code. -/
inductive Outcome (α : Type)
  | ret (a : α)
  | exited (code : Nat)
deriving DecidableEq

def Event.isSetpoint : Event → Bool
  | .setAttitude _ => true
  | .setVelocityNed _ => true
  | .setVelocityBody _ => true
  | .setPositionNed _ => true
  | _ => false

def Event.isStart : Event → Bool
  | .offboardStart _ => true
  | _ => false

def Event.isStop : Event → Bool
  | .offboardStop _ => true
  | _ => false

def Event.isArm : Event → Bool
  | .arm _ => true
  | _ => false

def Event.isDisarm : Event → Bool
  | .disarm _ => true
  | _ => false

def Event.isTakeoff : Event → Bool
  | .takeoff _ => true
  | _ => false

def Event.isLand : Event → Bool
  | .land _ => true
  | _ => false

def Event.isKill : Event → Bool
  | .kill _ => true
  | _ => false

def Event.isConnect : Event → Bool
  | .addAnyConnection _ => true
  | _ => false

def Event.isPluginInit : Event → Bool
  | .pluginInit _ => true
  | _ => false

def Event.isDiscover : Event → Bool
  | .discoverAttempt _ => true
  | _ => false

def Event.isMocapSend : Event → Bool
  | .mocapSend _ _ => true
  | _ => false

def Event.isVisionSend : Event → Bool
  | .visionSend _ _ => true
  | _ => false

/-- Number of events in `t` satisfying `p`. -/
def countIf (p : Event → Bool) (t : List Event) : Nat :=
  t.countP p

/-- `true` iff a setpoint-setting call occurs before the first
`offboard.start()` call (vacuously `true` when no start occurs). -/
def primedBeforeStart : List Event → Bool
  | [] => true
  | e :: rest =>
    if e.isStart then false
    else if e.isSetpoint then true
    else primedBeforeStart rest

/-- One step of the `stopAfterLastSetpoint` scan: a setpoint resets the
flag, a stop sets it, anything else keeps it. -/
def stopStep (acc : Bool) (e : Event) : Bool :=
  if e.isSetpoint then false else if e.isStop then true else acc

/-- `true` iff an `offboard.stop()` call occurs after the last
setpoint-setting call (vacuously `true` when no setpoint occurs). -/
def stopAfterLastSetpoint (t : List Event) : Bool :=
  t.foldl stopStep true

/-- `true` iff an `action.arm()` call occurs before the first
setpoint-setting call (vacuously `true` when no setpoint occurs). -/
def armBeforeSetpoints : List Event → Bool
  | [] => true
  | e :: rest =>
    if e.isSetpoint then false
    else if e.isArm then true
    else armBeforeSetpoints rest

/-- The event immediately following the first `log msg` event, if any. -/
def eventAfterLog (msg : String) : List Event → Option Event
  | [] => none
  | Event.log s :: rest => if s = msg then rest.head? else eventAfterLog msg rest
  | _ :: rest => eventAfterLog msg rest

/-- `true` iff `log msg` occurs in the list. -/
def hasLog (msg : String) : List Event → Bool
  | [] => false
  | Event.log s :: rest => if s = msg then true else hasLog msg rest
  | _ :: rest => hasLog msg rest


/-- `true` iff `e` transmits a `VelocityNedYaw` with `down_m_s = 1` and
`yaw_deg = 180` (the value line 120 of offboard_velocity_working.cpp
stores into `up_and_south`). -/
def sendsMutatedUpAndSouth (e : Event) : Bool :=
  match e with
  | .setVelocityNed v => decide (v.down_m_s = 1 ∧ v.yaw_deg = 180)
  | _ => false

/-- `true` iff `e` transmits a `VelocityNedYaw` with `down_m_s = -2` and
`yaw_deg = 180` (the original `up_and_south` value). -/
def sendsUpAndSouth (e : Event) : Bool :=
  match e with
  | .setVelocityNed v => decide (v.down_m_s = -2 ∧ v.yaw_deg = 180)
  | _ => false

/-- `true` iff `e` is a mocap send whose result is not `Success`. -/
def isMocapSendFail (e : Event) : Bool :=
  match e with
  | .mocapSend _ r => decide (r ≠ MocapResult.Success)
  | _ => false

/-- `true` iff `e` is a vision-estimate send whose result is not `Success`. -/
def isVisionSendFail (e : Event) : Bool :=
  match e with
  | .visionSend _ r => decide (r ≠ MocapResult.Success)
  | _ => false

end Mavsdk

namespace OffboardVelocity

open Mavsdk

/-- `offboard_error_exit` of offboard_velocity.cpp: on a non-Success
`Offboard::Result`, logs the message and calls `exit(EXIT_FAILURE)`. -/
def offboard_error_exit (result : OffboardResult) (message : String) :
    List Event × Outcome Unit :=
  if result ≠ OffboardResult.Success then ([Event.log message], Outcome.exited 1)
  else ([], Outcome.ret ())

/-- `action_error_exit` of offboard_velocity.cpp: on a non-Success
`Action::Result`, logs the message and calls `exit(EXIT_FAILURE)`. -/
def action_error_exit (result : ActionResult) (message : String) :
    List Event × Outcome Unit :=
  if result ≠ ActionResult.Success then ([Event.log message], Outcome.exited 1)
  else ([], Outcome.ret ())

/-- `connection_error_exit` of offboard_velocity.cpp. -/
def connection_error_exit (result : ConnectionResult) (message : String) :
    List Event × Outcome Unit :=
  if result ≠ ConnectionResult.Success then ([Event.log message], Outcome.exited 1)
  else ([], Outcome.ret ())

/-- `offboard_log` of offboard_velocity.cpp. -/
def offboard_log (offb_mode : String) (msg : String) : Event :=
  Event.log ("[" ++ offb_mode ++ "] " ++ msg)

/-- `offb_ctrl_attitude` of offboard_velocity.cpp.  `start_r` is the result
the library returns for `offboard.start()`.  The `offboard.stop()` call at
the end of the source function is commented out, so no stop event is ever
emitted.  The successive assignments to the local structs `roll`,
`thrust_value` and `attitude` are mirrored by the numbered `let`s. -/
def offb_ctrl_attitude (start_r : OffboardResult) : List Event × Outcome Bool :=
  let offb_mode := "ATTITUDE"
  let roll : Attitude := { roll_deg := 30, thrust_value := 0.6 }
  let thrust_value : Attitude := {}
  let pre : List Event := [Event.setAttitude roll, Event.offboardStart start_r]
  let (t1, o1) := offboard_error_exit start_r "Offboard start failed"
  let (rest, out) :=
    match o1 with
    | Outcome.exited c => ([], Outcome.exited c)
    | Outcome.ret _ =>
      let thrust_value_1 := { thrust_value with thrust_value := 0.1 }
      let attitude : Attitude :=
        { thrust_value := 0.3, roll_deg := 0.3, pitch_deg := 0, yaw_deg := 0 }
      let thrust_value_2 := { thrust_value_1 with thrust_value := 0.5 }
      let roll_2 := { roll with roll_deg := -30 }
      let roll_3 := { roll_2 with roll_deg := 0 }
      ([offboard_log offb_mode "Offboard started", Event.sleep 1000,
        offboard_log offb_mode "Thrust 0.1",
        Event.setAttitude thrust_value_1, Event.sleep 2000,
        Event.setAttitude attitude, Event.sleep 5000,
        offboard_log offb_mode "Thrust 0.5",
        Event.setAttitude thrust_value_2, Event.sleep 5000,
        offboard_log offb_mode "ROLL 30",
        Event.setAttitude roll, Event.sleep 5000,
        offboard_log offb_mode "ROLL -30",
        Event.setAttitude roll_2, Event.sleep 5000,
        offboard_log offb_mode "ROLL 0",
        Event.setAttitude roll_3, Event.sleep 2000,
        Event.setVelocityBody
          { forward_m_s := 0, right_m_s := 0, down_m_s := 0, yawspeed_deg_s := 0 },
        Event.sleep 2000],
       Outcome.ret true)
  (pre ++ t1 ++ rest, out)

/-- `wait_until_discover` of offboard_velocity.cpp: blocks until a system
is discovered; it has no timeout or failure path. -/
def wait_until_discover : List Event :=
  [Event.log "Waiting to discover system...", Event.waitUntilDiscover,
   Event.log "Discovered system"]

/-- The `mocap_msg` built in `main` of offboard_velocity.cpp: zero position,
identity quaternion, and the 21-entry covariance vector `v` appended to the
(initially empty) covariance matrix. -/
def mocap_msg : AttitudePositionMocap :=
  { position_body := { x_m := 0, y_m := 0, z_m := 0 }
    q := { w := 1, x := 0, y := 0, z := 0 }
    pose_covariance :=
      { covariance_matrix :=
          ([1, 0, 1, 0, 0, 1, 0, 0, 0, 1, 0, 0, 0, 0, 1, 0, 0, 0, 0, 0, 1] : List ℚ).map
            FloatVal.val } }

/-- `main` of offboard_velocity.cpp.  Oracle parameters, in call order:
connection result, mocap send result, arm result, `offboard.start()` result
(inside `offb_ctrl_attitude`), kill result (discarded by the source). -/
def main (argc : Nat) (connection_r : ConnectionResult) (mocap_r : MocapResult)
    (arm_r : ActionResult) (offb_start_r : OffboardResult) (kill_r : ActionResult) :
    List Event × Outcome Nat :=
  if argc = 2 then
    let t0 := [Event.addAnyConnection connection_r]
    let (rest, out) :=
      if connection_r ≠ ConnectionResult.Success then
        ([Event.log "Connection failed"], Outcome.ret 1)
      else
        let t1 := wait_until_discover ++
          [Event.pluginInit "Action", Event.pluginInit "Offboard",
           Event.pluginInit "Telemetry", Event.pluginInit "Mocap",
           Event.mocapSend mocap_msg mocap_r, Event.log "Mocap Status",
           Event.log "System is ready",
           Event.log "Arming...", Event.arm arm_r]
        let (rest2, out2) :=
          if arm_r ≠ ActionResult.Success then
            ([Event.log "Arming failed"], Outcome.ret 1)
          else
            let (t2, o) := offb_ctrl_attitude offb_start_r
            match o with
            | Outcome.exited c => (t2, Outcome.exited c)
            | Outcome.ret ret =>
              if ret = false then (t2, Outcome.ret 1)
              else
                (t2 ++ [Event.log "Killing Motors", Event.kill kill_r, Event.sleep 1000],
                 Outcome.ret 0)
        (t1 ++ rest2, out2)
    (t0 ++ rest, out)
  else
    ([Event.usage], Outcome.ret 1)

end OffboardVelocity

namespace Mavsdk

/-- `get_system`, defined identically in offboard_velocity_working.cpp,
offboard_attitude_control.cpp, offboard_vision.cpp,
offboard_telemetry_health.cpp and offboard_read_blocking.cpp: waits up to
3 seconds for a system with an autopilot; `found` records whether one was
discovered in time.  On timeout it returns an empty `shared_ptr`,
modelled as `none`. -/
def get_system (found : Bool) : List Event × Option Unit :=
  if found then
    ([Event.log "Waiting to discover system...", Event.discoverAttempt true,
      Event.log "Discovered autopilot"], some ())
  else
    ([Event.log "Waiting to discover system...", Event.discoverAttempt false,
      Event.log "No autopilot found."], none)

end Mavsdk

namespace OffboardVelocityWorking

open Mavsdk

/-- Loop trip count of the "Go North and back South" loop of
`offb_ctrl_ned`: `steps = 2 * unsigned(one_cycle / step_size)` where
`one_cycle = 2.0f * (float)M_PI` and `step_size = 0.01f`; in 32-bit float
arithmetic the quotient is 628.318..., truncated to 628, so `steps = 1256`. -/
def steps : Nat := 1256

/-- The "Go North and back South" loop body of `offb_ctrl_ned`: on each
iteration a fresh `north_and_back_south` value with
`north_m_s = 5.0f * sinf(i * step_size)` and `yaw_deg = 90` is sent,
followed by a 10 ms sleep.  `sinf i` stands for the value the C library
returns for `sinf(i * step_size)`. -/
def north_and_back_south (sinf : Nat → ℚ) : List Mavsdk.Event :=
  (List.range steps).flatMap (fun i =>
    [Mavsdk.Event.setVelocityNed { north_m_s := 5 * sinf i, yaw_deg := 90 },
     Mavsdk.Event.sleep 10])

/-- Events of `offb_ctrl_ned` before and including the `offboard.start()`
call: the initial log, the priming `stay` setpoint sent once before
starting offboard, and the start call itself (source lines 68-74). -/
def nedPre (start_r : OffboardResult) : List Event :=
  let stay : VelocityNedYaw := {}
  [Event.log "Starting Offboard velocity control in NED coordinates",
   Event.setVelocityNed stay, Event.offboardStart start_r]

/-- Events of `offb_ctrl_ned` between a successful start and the
North/South loop (source lines 80-93). -/
def nedMid : List Event :=
  let turn_east : VelocityNedYaw := { yaw_deg := 90 }
  [Event.log "Offboard started", Event.log "Turn to face East",
   Event.setVelocityNed turn_east, Event.sleep 1000,
   Event.log "Go North and back South"]

/-- Events of `offb_ctrl_ned` after the North/South loop, up to and
including the `offboard.stop()` call (source lines 105-124).  Line 120 of
the source assigns `up_and_south.down_m_s = 1.0f` (mirrored by
`up_and_south_2`, which is never transmitted) while the freshly
value-initialized `down_and_north` is what `set_velocity_ned` receives at
the "Go down 1 m/s" step. -/
def nedEnd (stop_r : OffboardResult) : List Event :=
  let turn_west : VelocityNedYaw := { yaw_deg := 270 }
  let up_and_south : VelocityNedYaw := { down_m_s := -2, yaw_deg := 180 }
  let down_and_north : VelocityNedYaw := {}
  let up_and_south_2 := { up_and_south with down_m_s := 1 }
  [Event.log "Turn to face West",
   Event.setVelocityNed turn_west, Event.sleep 2000,
   Event.log "Go up 2 m/s, turn to face South",
   Event.setVelocityNed up_and_south, Event.sleep 4000,
   Event.log "Go down 1 m/s, turn to face North",
   Event.setVelocityNed down_and_north, Event.sleep 4000,
   Event.offboardStop stop_r]

/-- `offb_ctrl_ned` of offboard_velocity_working.cpp, assembled from the
trace segments above.  `start_r` / `stop_r` are the results of
`offboard.start()` / `offboard.stop()`; `sinf i` is the value the C
library returns for `sinf(i * step_size)` inside the loop.  A failed
start logs and returns `false` before any further setpoint; a failed
stop logs and returns `false`; otherwise the function returns `true`. -/
def offb_ctrl_ned (start_r stop_r : OffboardResult) (sinf : Nat → ℚ) :
    List Event × Bool :=
  if start_r ≠ OffboardResult.Success then
    (nedPre start_r ++ [Event.log "Offboard start failed"], false)
  else if stop_r ≠ OffboardResult.Success then
    (nedPre start_r ++ (nedMid ++ (north_and_back_south sinf ++
      (nedEnd stop_r ++ [Event.log "Offboard stop failed"]))), false)
  else
    (nedPre start_r ++ (nedMid ++ (north_and_back_south sinf ++
      (nedEnd stop_r ++ [Event.log "Offboard stopped"]))), true)

/-- `offb_ctrl_body` of offboard_velocity_working.cpp. -/
def offb_ctrl_body (start_r stop_r : OffboardResult) : List Event × Bool :=
  let stay : VelocityBodyYawspeed := {}
  let pre : List Event :=
    [Event.log "Starting Offboard velocity control in body coordinates",
     Event.setVelocityBody stay, Event.offboardStart start_r]
  let (rest, ok) :=
    if start_r ≠ OffboardResult.Success then
      ([Event.log "Offboard start failed"], false)
    else
      let cc_and_climb : VelocityBodyYawspeed := { down_m_s := -1, yawspeed_deg_s := 60 }
      let ccw : VelocityBodyYawspeed := { down_m_s := -1, yawspeed_deg_s := -60 }
      let circle : VelocityBodyYawspeed := { forward_m_s := 5, yawspeed_deg_s := 30 }
      let circle_2 := { circle with right_m_s := -5, yawspeed_deg_s := 30 }
      let (tail, ok2) :=
        if stop_r ≠ OffboardResult.Success then
          ([Event.log "Offboard stop failed"], false)
        else
          ([Event.log "Offboard stopped"], true)
      ([Event.log "Offboard started",
        Event.log "Turn clock-wise and climb",
        Event.setVelocityBody cc_and_climb, Event.sleep 5000,
        Event.log "Turn back anti-clockwise",
        Event.setVelocityBody ccw, Event.sleep 5000,
        Event.log "Wait for a bit",
        Event.setVelocityBody stay, Event.sleep 2000,
        Event.log "Fly a circle",
        Event.setVelocityBody circle, Event.sleep 15000,
        Event.log "Wait for a bit",
        Event.setVelocityBody stay, Event.sleep 5000,
        Event.log "Fly a circle sideways",
        Event.setVelocityBody circle_2, Event.sleep 15000,
        Event.log "Wait for a bit",
        Event.setVelocityBody stay, Event.sleep 8000,
        Event.offboardStop stop_r] ++ tail, ok2)
  (pre ++ rest, ok)

/-- `offb_ctrl_attitude` of offboard_velocity_working.cpp.  The
`offboard.stop()` call at the end of the source function is commented out,
so no stop event is ever emitted; the successive assignments to the local
`roll` struct are mirrored by the numbered `let`s. -/
def offb_ctrl_attitude (start_r : OffboardResult) : List Event × Bool :=
  let roll : Attitude := { roll_deg := 30, thrust_value := 0.6 }
  let pre : List Event :=
    [Event.log "Starting Offboard attitude control",
     Event.setAttitude roll, Event.offboardStart start_r]
  let (rest, ok) :=
    if start_r ≠ OffboardResult.Success then
      ([Event.log "Offboard start failed"], false)
    else
      let roll_2 := { roll with roll_deg := 0 }
      let roll_3 := { roll_2 with roll_deg := -30 }
      let roll_4 := { roll_3 with roll_deg := 0 }
      ([Event.log "Offboard started",
        Event.log "Roll 30 degrees to the right",
        Event.setAttitude roll, Event.sleep 2000,
        Event.log "Stay horizontal",
        Event.setAttitude roll_2, Event.sleep 1000,
        Event.log "Roll 30 degrees to the left",
        Event.setAttitude roll_3, Event.sleep 2000,
        Event.log "Stay horizontal",
        Event.setAttitude roll_4, Event.sleep 2000], true)
  (pre ++ rest, ok)

/-- `main` of offboard_velocity_working.cpp.  Oracle parameters, in call
order: connection result, discovery success, arm result, takeoff result,
whether the `InAir` landed state arrived before the wait timed out,
`offboard.start()` result inside `offb_ctrl_attitude`, land result, and
the number of iterations of the `while (telemetry.in_air())` landing
loop. -/
def main (argc : Nat) (conn_r : ConnectionResult) (found : Bool)
    (arm_r takeoff_r : ActionResult) (in_air : Bool)
    (att_start_r : OffboardResult) (land_r : ActionResult)
    (landing_iters : Nat) : List Event × Nat :=
  if argc ≠ 2 then ([Event.usage], 1)
  else
    let t0 := [Event.addAnyConnection conn_r]
    let (rest, code) :=
      if conn_r ≠ ConnectionResult.Success then
        ([Event.log "Connection failed"], 1)
      else
        let (tg, sys) := get_system found
        let (rest2, code2) :=
          match sys with
          | none => ([], 1)
          | some _ =>
            let t1 :=
              [Event.pluginInit "Action", Event.pluginInit "Offboard",
               Event.pluginInit "Telemetry", Event.log "System is ready",
               Event.arm arm_r]
            let (rest3, code3) :=
              if arm_r ≠ ActionResult.Success then
                ([Event.log "Arming failed"], 1)
              else
                let t2 := [Event.log "Armed", Event.takeoff takeoff_r]
                let (rest4, code4) :=
                  if takeoff_r ≠ ActionResult.Success then
                    ([Event.log "Takeoff failed"], 1)
                  else
                    let t3 := [Event.subscribeTelemetry "landed_state"]
                    let (rest5, code5) :=
                      if in_air = false then
                        ([Event.log "Takeoff timed out."], 1)
                      else
                        let (t4, ok) := offb_ctrl_attitude att_start_r
                        let (rest6, code6) :=
                          if ok = false then ([], 1)
                          else
                            let t5 := [Event.land land_r]
                            let (rest7, code7) :=
                              if land_r ≠ ActionResult.Success then
                                ([Event.log "Landing failed"], 1)
                              else
                                ((List.range landing_iters).flatMap (fun _ =>
                                   [Event.log "Vehicle is landing...", Event.sleep 1000]) ++
                                 [Event.log "Landed!", Event.sleep 3000,
                                  Event.log "Finished..."], 0)
                            (t5 ++ rest7, code7)
                        (t4 ++ rest6, code6)
                    (t3 ++ rest5, code5)
                (t2 ++ rest4, code4)
            (t1 ++ rest3, code3)
        (tg ++ rest2, code2)
    (t0 ++ rest, code)

end OffboardVelocityWorking

namespace OffboardAttitudeControl

open Mavsdk

/-- `offb_ctrl_attitude` of offboard_attitude_control.cpp.  The single
local `attitude_msg` is repeatedly reassigned and sent; the
`offboard.stop()` call at the end of the source function is commented out,
so no stop event is ever emitted. -/
def offb_ctrl_attitude (start_r : OffboardResult) : List Event × Bool :=
  let attitude_msg : Attitude :=
    { roll_deg := 0, pitch_deg := 0, yaw_deg := 0, thrust_value := 0.1 }
  let pre : List Event :=
    [Event.log "Starting Offboard attitude control",
     Event.setAttitude attitude_msg, Event.offboardStart start_r]
  let (rest, ok) :=
    if start_r ≠ OffboardResult.Success then
      ([Event.log "Offboard start failed"], false)
    else
      let attitude_msg_1 := { attitude_msg with roll_deg := 0, thrust_value := 0.15 }
      let attitude_msg_2 := { attitude_msg_1 with roll_deg := 30 }
      let attitude_msg_3 := { attitude_msg_2 with roll_deg := 0 }
      let attitude_msg_4 := { attitude_msg_3 with roll_deg := -30 }
      let attitude_msg_5 := { attitude_msg_4 with roll_deg := 0 }
      let attitude_msg_6 := { attitude_msg_5 with thrust_value := 0.2 }
      let attitude_msg_7 := { attitude_msg_6 with thrust_value := 0 }
      ([Event.log "Offboard started",
        Event.log "Stay horizontal",
        Event.setAttitude attitude_msg_1, Event.sleep 3000,
        Event.log "Roll 30 degrees to the left",
        Event.setAttitude attitude_msg_2, Event.sleep 1000,
        Event.log "Roll to hover position",
        Event.setAttitude attitude_msg_3, Event.sleep 1000,
        Event.log "Roll 30 degrees to the right",
        Event.setAttitude attitude_msg_4, Event.sleep 1000,
        Event.log "Stay horizontal",
        Event.setAttitude attitude_msg_5, Event.sleep 1000,
        Event.log "Stay horizontal",
        Event.setAttitude attitude_msg_6, Event.sleep 1000,
        Event.log "Set thrust to zero",
        Event.setAttitude attitude_msg_7, Event.sleep 2000], true)
  (pre ++ rest, ok)

/-- `main` of offboard_attitude_control.cpp.  Oracle parameters, in call
order: connection result, discovery success, arm result,
`offboard.start()` result inside `offb_ctrl_attitude`, kill result
(discarded by the source). -/
def main (argc : Nat) (conn_r : ConnectionResult) (found : Bool)
    (arm_r : ActionResult) (att_start_r : OffboardResult) (kill_r : ActionResult) :
    List Event × Nat :=
  if argc ≠ 2 then ([Event.usage], 1)
  else
    let t0 := [Event.addAnyConnection conn_r]
    let (rest, code) :=
      if conn_r ≠ ConnectionResult.Success then
        ([Event.log "Connection failed"], 1)
      else
        let (tg, sys) := get_system found
        let (rest2, code2) :=
          match sys with
          | none => ([], 1)
          | some _ =>
            let t1 :=
              [Event.pluginInit "Action", Event.pluginInit "Offboard",
               Event.pluginInit "Telemetry", Event.log "System is ready",
               Event.arm arm_r]
            let (rest3, code3) :=
              if arm_r ≠ ActionResult.Success then
                ([Event.log "Arming failed"], 1)
              else
                let (t2, ok) := offb_ctrl_attitude att_start_r
                let (rest4, code4) :=
                  if ok = false then ([], 1)
                  else
                    ([Event.kill kill_r, Event.log "Killing Motors",
                      Event.sleep 2000, Event.log "Finished..."], 0)
                (t2 ++ rest4, code4)
            (t1 ++ rest3, code3)
        (tg ++ rest2, code2)
    (t0 ++ rest, code)

end OffboardAttitudeControl

namespace OffboardVision

open Mavsdk

/-- The `vision_msg` built in `main` of offboard_vision.cpp: position
(1.2, 3.4, 5.6), yaw 1.0 rad, and a covariance matrix finally set to the
one-element vector `{NAN}`. -/
def vision_msg : VisionPositionEstimate :=
  { time_usec := 0
    position_body := { x_m := 1.2, y_m := 3.4, z_m := 5.6 }
    angle_body := { roll_rad := 0, pitch_rad := 0, yaw_rad := 1 }
    pose_covariance := { covariance_matrix := [FloatVal.nan] } }

/-- `main` of offboard_vision.cpp.  Oracle parameters: connection result,
discovery success, and `vision_r i`, the result of the i-th
`set_vision_position_estimate` call (each is only printed; the loop always
runs its 100 iterations).  No `Action` plugin is instantiated and no
arm/disarm/takeoff call occurs in this file. -/
def main (argc : Nat) (conn_r : ConnectionResult) (found : Bool)
    (vision_r : Nat → MocapResult) : List Event × Nat :=
  if argc ≠ 2 then ([Event.usage], 1)
  else
    let t0 := [Event.addAnyConnection conn_r]
    let (rest, code) :=
      if conn_r ≠ ConnectionResult.Success then
        ([Event.log "Connection failed"], 1)
      else
        let (tg, sys) := get_system found
        let (rest2, code2) :=
          match sys with
          | none => ([], 1)
          | some _ =>
            ([Event.pluginInit "Telemetry", Event.pluginInit "Mocap",
              Event.log "System is ready", Event.sleep 1000] ++
             (List.range 100).flatMap (fun i =>
               [Event.visionSend vision_msg (vision_r i),
                Event.log "Position sent", Event.sleep 30]) ++
             [Event.sleep 500, Event.sleep 1000, Event.log "Finished..."], 0)
        (tg ++ rest2, code2)
    (t0 ++ rest, code)

end OffboardVision

namespace OffboardTelemetryHealth

open Mavsdk

/-- `main` of offboard_telemetry_health.cpp: connects, discovers,
instantiates the Telemetry and Mocap plugins, subscribes to health and RC
status, sleeps and returns 0.  The whole mocap-sending block is commented
out in the source; no arm/disarm call occurs in this file. -/
def main (argc : Nat) (conn_r : ConnectionResult) (found : Bool) :
    List Event × Nat :=
  if argc ≠ 2 then ([Event.usage], 1)
  else
    let t0 := [Event.addAnyConnection conn_r]
    let (rest, code) :=
      if conn_r ≠ ConnectionResult.Success then
        ([Event.log "Connection failed"], 1)
      else
        let (tg, sys) := get_system found
        let (rest2, code2) :=
          match sys with
          | none => ([], 1)
          | some _ =>
            ([Event.pluginInit "Telemetry", Event.pluginInit "Mocap",
              Event.log "System is ready", Event.sleep 1000,
              Event.subscribeTelemetry "health",
              Event.subscribeTelemetry "rc_status",
              Event.sleep 3000, Event.sleep 500, Event.sleep 1000,
              Event.log "Finished..."], 0)
        (tg ++ rest2, code2)
    (t0 ++ rest, code)

end OffboardTelemetryHealth

namespace OffboardReadBlocking

open Mavsdk

/-- The thirteen blocking telemetry reads printed on each iteration of the
read loop of offboard_read_blocking.cpp. -/
def readChannels : List String :=
  ["position", "home", "attitude_quaternion", "attitude_euler",
   "attitude_angular_velocity_body", "fixedwing_metrics", "ground_truth",
   "velocity_ned", "gps_info", "battery", "actuator_control_target",
   "flight_mode", "landed_state"]

/-- `main` of offboard_read_blocking.cpp: connects, discovers,
instantiates the Telemetry plugin, prints thirteen telemetry values ten
times and returns 0.  No arm/disarm call occurs in this file. -/
def main (argc : Nat) (conn_r : ConnectionResult) (found : Bool) :
    List Event × Nat :=
  if argc ≠ 2 then ([Event.usage], 1)
  else
    let t0 := [Event.addAnyConnection conn_r]
    let (rest, code) :=
      if conn_r ≠ ConnectionResult.Success then
        ([Event.log "Connection failed"], 1)
      else
        let (tg, sys) := get_system found
        let (rest2, code2) :=
          match sys with
          | none => ([], 1)
          | some _ =>
            ([Event.pluginInit "Telemetry", Event.log "System is ready"] ++
             (List.range 10).flatMap (fun _ =>
               readChannels.map Event.telemetryRead ++ [Event.sleep 500]) ++
             [Event.sleep 3000, Event.log "Finished..."], 0)
        (tg ++ rest2, code2)
    (t0 ++ rest, code)

end OffboardReadBlocking

/-!
Helper lemmas: counting and scanning over concatenated traces, so that
properties of the long NED trace (whose loop sends 1256 setpoints) can be
settled segment by segment.
-/

namespace Mavsdk

theorem countIf_append (p : Event → Bool) (a b : List Event) :
    countIf p (a ++ b) = countIf p a + countIf p b := by
  simp [countIf, List.countP_append]

theorem countIf_flatMap_zero {α : Type} (p : Event → Bool) (f : α → List Event)
    (l : List α) (h : ∀ i, countIf p (f i) = 0) :
    countIf p (l.flatMap f) = 0 := by
  induction l with
  | nil => rfl
  | cons a t ih => rw [List.flatMap_cons, countIf_append, h a, ih]

theorem countIf_flatMap_ones {α : Type} (p : Event → Bool) (f : α → List Event)
    (l : List α) (h : ∀ i, countIf p (f i) = 1) :
    countIf p (l.flatMap f) = l.length := by
  induction l with
  | nil => rfl
  | cons a t ih =>
    rw [List.flatMap_cons, countIf_append, h a, ih, List.length_cons, Nat.add_comm]

theorem hasLog_append_none (msg : String) {X Y : List Event}
    (hX : hasLog msg X = false) (hY : hasLog msg Y = false) :
    hasLog msg (X ++ Y) = false := by
  induction X with
  | nil => simpa using hY
  | cons e t ih =>
    cases e with
    | log s =>
      simp only [hasLog, List.cons_append] at hX ⊢
      cases hse : decide (s = msg) with
      | true =>
        rw [if_pos (of_decide_eq_true hse)] at hX
        exact Bool.noConfusion hX
      | false =>
        rw [if_neg (of_decide_eq_false hse)] at hX ⊢
        exact ih hX
    | _ => exact ih hX

theorem hasLog_flatMap {α : Type} (msg : String) (f : α → List Event)
    (l : List α) (h : ∀ i, hasLog msg (f i) = false) :
    hasLog msg (l.flatMap f) = false := by
  induction l with
  | nil => rfl
  | cons a t ih => rw [List.flatMap_cons]; exact hasLog_append_none msg (h a) ih

theorem eventAfterLog_append_skip (msg : String) (X Y : List Event)
    (hX : hasLog msg X = false) :
    eventAfterLog msg (X ++ Y) = eventAfterLog msg Y := by
  induction X with
  | nil => rfl
  | cons e t ih =>
    cases e with
    | log s =>
      simp only [hasLog, eventAfterLog, List.cons_append] at hX ⊢
      cases hse : decide (s = msg) with
      | true =>
        rw [if_pos (of_decide_eq_true hse)] at hX
        exact Bool.noConfusion hX
      | false =>
        rw [if_neg (of_decide_eq_false hse)] at hX ⊢
        exact ih hX
    | _ => exact ih hX

theorem foldl_stopStep_append (X Y : List Event) (acc : Bool)
    (h : ∀ a, Y.foldl stopStep a = true) :
    (X ++ Y).foldl stopStep acc = true := by
  rw [List.foldl_append]; exact h _

end Mavsdk

open Mavsdk

/-- Helper for C1: at the "Go down 1 m/s, turn to face North" step of
`offb_ctrl_ned`, the transmitted `VelocityNedYaw` is the all-zero
`down_and_north`. -/
theorem ned_sends_zero_struct_at_go_down (stop_r : OffboardResult) (sinf : Nat → ℚ) :
    eventAfterLog "Go down 1 m/s, turn to face North"
      (OffboardVelocityWorking.offb_ctrl_ned OffboardResult.Success stop_r sinf).fst =
    some (Event.setVelocityNed {}) := by
  have hloop : hasLog "Go down 1 m/s, turn to face North"
      (OffboardVelocityWorking.north_and_back_south sinf) = false :=
    hasLog_flatMap _ _ _ (fun _ => rfl)
  cases stop_r <;>
    (show eventAfterLog _ (OffboardVelocityWorking.nedPre _ ++ _) = _
     rw [eventAfterLog_append_skip "Go down 1 m/s, turn to face North"
           (OffboardVelocityWorking.nedPre OffboardResult.Success) _ rfl,
         eventAfterLog_append_skip "Go down 1 m/s, turn to face North"
           OffboardVelocityWorking.nedMid _ rfl,
         eventAfterLog_append_skip "Go down 1 m/s, turn to face North"
           (OffboardVelocityWorking.north_and_back_south sinf) _ hloop]
     rfl)

/-- Helper for C1: the value produced by the dead-store assignment
(`down_m_s = 1`, `yaw_deg = 180`) is never transmitted by `offb_ctrl_ned`. -/
theorem ned_mutated_value_never_sent (stop_r : OffboardResult) (sinf : Nat → ℚ) :
    countIf sendsMutatedUpAndSouth
      (OffboardVelocityWorking.offb_ctrl_ned OffboardResult.Success stop_r sinf).fst = 0 := by
  have hloop : countIf sendsMutatedUpAndSouth
      (OffboardVelocityWorking.north_and_back_south sinf) = 0 :=
    countIf_flatMap_zero _ _ _ (fun _ => rfl)
  cases stop_r <;>
    (show countIf _ (OffboardVelocityWorking.nedPre _ ++ _) = 0
     rw [countIf_append, countIf_append, countIf_append, countIf_append, hloop]
     decide)

/-- Helper for C1: the original `up_and_south` value (`down_m_s = -2`,
`yaw_deg = 180`) is transmitted exactly once, before the mutation. -/
theorem ned_up_and_south_sent_once (stop_r : OffboardResult) (sinf : Nat → ℚ) :
    countIf sendsUpAndSouth
      (OffboardVelocityWorking.offb_ctrl_ned OffboardResult.Success stop_r sinf).fst = 1 := by
  have hloop : countIf sendsUpAndSouth
      (OffboardVelocityWorking.north_and_back_south sinf) = 0 :=
    countIf_flatMap_zero _ _ _ (fun _ => rfl)
  cases stop_r <;>
    (show countIf _ (OffboardVelocityWorking.nedPre _ ++ _) = 1
     rw [countIf_append, countIf_append, countIf_append, countIf_append, hloop]
     decide)

/-- C1: In `offb_ctrl_ned` of src/offboard_velocity_working.cpp, at the step
logged as "Go down 1 m/s, turn to face North", the `VelocityNedYaw` passed
to `offboard.set_velocity_ned` is the freshly default-initialized
`down_and_north` (every field 0), because the assignment `down_m_s = 1.0f`
is applied to the previously-sent local `up_and_south`: the mutated value
(`down_m_s = 1`, `yaw_deg = 180`) is never transmitted, and the original
`up_and_south` value is transmitted exactly once, before the mutation. -/
theorem c1_ned_dead_store_sends_zero_struct (stop_r : OffboardResult) (sinf : Nat → ℚ) :
    eventAfterLog "Go down 1 m/s, turn to face North"
      (OffboardVelocityWorking.offb_ctrl_ned OffboardResult.Success stop_r sinf).fst =
      some (Event.setVelocityNed
        { north_m_s := 0, east_m_s := 0, down_m_s := 0, yaw_deg := 0 }) ∧
    countIf sendsMutatedUpAndSouth
      (OffboardVelocityWorking.offb_ctrl_ned OffboardResult.Success stop_r sinf).fst = 0 ∧
    countIf sendsUpAndSouth
      (OffboardVelocityWorking.offb_ctrl_ned OffboardResult.Success stop_r sinf).fst = 1 :=
  ⟨ned_sends_zero_struct_at_go_down stop_r sinf,
   ned_mutated_value_never_sent stop_r sinf,
   ned_up_and_south_sent_once stop_r sinf⟩

/-- C2 counterexample: `offb_ctrl_attitude` of src/offboard_velocity.cpp,
with a successful `offboard.start()`, returns `true` while its trace
contains no `offboard.stop()` call at all (the stop call is commented
out), so not every `offb_ctrl_*` function stops offboard after its last
setpoint on a `true`-returning path. -/
theorem c2_counterexample_attitude_returns_true_without_stop :
    (OffboardVelocity.offb_ctrl_attitude OffboardResult.Success).snd = Outcome.ret true ∧
    countIf Event.isStop
      (OffboardVelocity.offb_ctrl_attitude OffboardResult.Success).fst = 0 := by
  decide

/-- C2 amended: `offb_ctrl_ned` and `offb_ctrl_body` of
src/offboard_velocity_working.cpp call `offboard.stop()` after their final
setpoint on every path that returns `true`; but the three
`offb_ctrl_attitude` functions (src/offboard_velocity.cpp,
src/offboard_velocity_working.cpp, src/offboard_attitude_control.cpp)
never call `offboard.stop()` — their stop calls are commented out — and
return `true` exactly when `offboard.start()` succeeded. -/
theorem c2_amended_stop_only_in_ned_and_body :
    (∀ (s1 s2 : OffboardResult) (sinf : Nat → ℚ),
      (OffboardVelocityWorking.offb_ctrl_ned s1 s2 sinf).snd = true →
      stopAfterLastSetpoint (OffboardVelocityWorking.offb_ctrl_ned s1 s2 sinf).fst = true) ∧
    (∀ s1 s2 : OffboardResult,
      (OffboardVelocityWorking.offb_ctrl_body s1 s2).snd = true →
      stopAfterLastSetpoint (OffboardVelocityWorking.offb_ctrl_body s1 s2).fst = true) ∧
    (∀ s1 : OffboardResult,
      countIf Event.isStop (OffboardVelocityWorking.offb_ctrl_attitude s1).fst = 0 ∧
      ((OffboardVelocityWorking.offb_ctrl_attitude s1).snd = true ↔
        s1 = OffboardResult.Success)) ∧
    (∀ s1 : OffboardResult,
      countIf Event.isStop (OffboardAttitudeControl.offb_ctrl_attitude s1).fst = 0 ∧
      ((OffboardAttitudeControl.offb_ctrl_attitude s1).snd = true ↔
        s1 = OffboardResult.Success)) ∧
    (∀ s1 : OffboardResult,
      countIf Event.isStop (OffboardVelocity.offb_ctrl_attitude s1).fst = 0 ∧
      ((OffboardVelocity.offb_ctrl_attitude s1).snd = Outcome.ret true ↔
        s1 = OffboardResult.Success)) := by
  refine ⟨?_, by decide, by decide, by decide, by decide⟩
  intro s1 s2 sinf h
  cases s1 <;> cases s2 <;> first
    | exact Bool.noConfusion h
    | (show List.foldl stopStep true (OffboardVelocityWorking.nedPre _ ++ _) = true
       apply foldl_stopStep_append
       intro a
       apply foldl_stopStep_append
       intro a2
       apply foldl_stopStep_append
       intro a3
       cases a3 <;> rfl)

/-- C2 witness: the amended theorem applied at the all-success oracle of
`offb_ctrl_ned` (with `sinf` identically 0): the function returns true
and its trace has a stop call after the last setpoint. -/
theorem c2_amended_stop_only_in_ned_and_body_witness :
    stopAfterLastSetpoint
      (OffboardVelocityWorking.offb_ctrl_ned OffboardResult.Success OffboardResult.Success
        (fun _ => 0)).fst = true :=
  c2_amended_stop_only_in_ned_and_body.1 OffboardResult.Success OffboardResult.Success
    (fun _ => 0) rfl

/-- C3: every `offb_ctrl_*` function in the examples sends at least one
setpoint before calling `offboard.start()`: in each of the five functions
the first start event is preceded by a setpoint-setting event, for every
oracle. -/
theorem c3_setpoint_sent_before_start :
    (∀ r : OffboardResult,
      primedBeforeStart (OffboardVelocity.offb_ctrl_attitude r).fst = true) ∧
    (∀ (s1 s2 : OffboardResult) (sinf : Nat → ℚ),
      primedBeforeStart (OffboardVelocityWorking.offb_ctrl_ned s1 s2 sinf).fst = true) ∧
    (∀ s1 s2 : OffboardResult,
      primedBeforeStart (OffboardVelocityWorking.offb_ctrl_body s1 s2).fst = true) ∧
    (∀ s1 : OffboardResult,
      primedBeforeStart (OffboardVelocityWorking.offb_ctrl_attitude s1).fst = true) ∧
    (∀ s1 : OffboardResult,
      primedBeforeStart (OffboardAttitudeControl.offb_ctrl_attitude s1).fst = true) := by
  refine ⟨by decide, ?_, by decide, by decide, by decide⟩
  intro s1 s2 sinf
  cases s1 <;> cases s2 <;> rfl

/-- C6 counterexample: in src/offboard_velocity.cpp a non-Success result
of `offboard.start()` (here `Timeout`) makes `offb_ctrl_attitude`
terminate the process via `offboard_error_exit` with `exit(EXIT_FAILURE)`,
so start/stop handshake failures are not always surfaced as a returned
typed result. -/
theorem c6_counterexample_start_timeout_exits_process :
    (OffboardVelocity.offb_ctrl_attitude OffboardResult.Timeout).snd = Outcome.exited 1 ∧
    countIf Event.isStart
      (OffboardVelocity.offb_ctrl_attitude OffboardResult.Timeout).fst = 1 := by
  decide

/-- C6 amended: in src/offboard_velocity_working.cpp and
src/offboard_attitude_control.cpp, non-Success results of
`offboard.start()` / `offboard.stop()` are surfaced to the caller as a
typed result (the `offb_ctrl_*` function returns `false`); but in
src/offboard_velocity.cpp, `offb_ctrl_attitude` reacts to a non-Success
start result by terminating the process with `exit(EXIT_FAILURE)` via
`offboard_error_exit`. -/
theorem c6_amended_start_stop_failures_returned_except_velocity :
    (∀ r : OffboardResult, r ≠ OffboardResult.Success →
      (OffboardVelocityWorking.offb_ctrl_attitude r).snd = false) ∧
    (∀ (r s2 : OffboardResult) (sinf : Nat → ℚ), r ≠ OffboardResult.Success →
      (OffboardVelocityWorking.offb_ctrl_ned r s2 sinf).snd = false) ∧
    (∀ (s2 : OffboardResult) (sinf : Nat → ℚ), s2 ≠ OffboardResult.Success →
      (OffboardVelocityWorking.offb_ctrl_ned OffboardResult.Success s2 sinf).snd = false) ∧
    (∀ r s2 : OffboardResult, r ≠ OffboardResult.Success →
      (OffboardVelocityWorking.offb_ctrl_body r s2).snd = false) ∧
    (∀ s2 : OffboardResult, s2 ≠ OffboardResult.Success →
      (OffboardVelocityWorking.offb_ctrl_body OffboardResult.Success s2).snd = false) ∧
    (∀ r : OffboardResult, r ≠ OffboardResult.Success →
      (OffboardAttitudeControl.offb_ctrl_attitude r).snd = false) ∧
    (∀ r : OffboardResult, r ≠ OffboardResult.Success →
      (OffboardVelocity.offb_ctrl_attitude r).snd = Outcome.exited 1) := by
  refine ⟨by decide, ?_, ?_, by decide, by decide, by decide, by decide⟩
  · intro r s2 sinf h
    cases r <;> first | exact absurd rfl h | rfl
  · intro s2 sinf h
    cases s2 <;> first | exact absurd rfl h | rfl

/-- C6 witness: the amended theorem applied to a `Timeout` stop result of
`offb_ctrl_ned`: the failure is returned as `false`, not an exit. -/
theorem c6_amended_witness :
    (OffboardVelocityWorking.offb_ctrl_ned OffboardResult.Success OffboardResult.Timeout
      (fun _ => 0)).snd = false :=
  c6_amended_start_stop_failures_returned_except_velocity.2.2.1 OffboardResult.Timeout
    (fun _ => 0) (by decide)

/-- C10: `offb_ctrl_attitude` of src/offboard_velocity.cpp never returns
`false`: for every start result it either returns `true` (when start
succeeded) or exits the process with `EXIT_FAILURE` (when it did not), so
the `if (ret == false)` check in `main` is unreachable. -/
theorem c10_velocity_attitude_never_returns_false :
    ∀ r : OffboardResult,
      (OffboardVelocity.offb_ctrl_attitude r).snd ≠ Outcome.ret false ∧
      ((OffboardVelocity.offb_ctrl_attitude r).snd = Outcome.ret true ∨
       (OffboardVelocity.offb_ctrl_attitude r).snd = Outcome.exited 1) := by
  decide

/-- C8: every example `main`, invoked with `argc ≠ 2`, prints the usage
text and returns exit code 1 without calling `add_any_connection` or
performing any other action: its event trace is exactly `[usage]`. -/
theorem c8_bad_argc_prints_usage_and_returns_one :
    ∀ argc : Nat, argc ≠ 2 →
      (∀ (c : ConnectionResult) (m : MocapResult) (a : ActionResult)
         (s : OffboardResult) (k : ActionResult),
        OffboardVelocity.main argc c m a s k = ([Event.usage], Outcome.ret 1)) ∧
      (∀ (c : ConnectionResult) (f : Bool) (a t : ActionResult) (i : Bool)
         (s : OffboardResult) (l : ActionResult) (n : Nat),
        OffboardVelocityWorking.main argc c f a t i s l n = ([Event.usage], 1)) ∧
      (∀ (c : ConnectionResult) (f : Bool) (a : ActionResult)
         (s : OffboardResult) (k : ActionResult),
        OffboardAttitudeControl.main argc c f a s k = ([Event.usage], 1)) ∧
      (∀ (c : ConnectionResult) (f : Bool) (v : Nat → MocapResult),
        OffboardVision.main argc c f v = ([Event.usage], 1)) ∧
      (∀ (c : ConnectionResult) (f : Bool),
        OffboardTelemetryHealth.main argc c f = ([Event.usage], 1)) ∧
      (∀ (c : ConnectionResult) (f : Bool),
        OffboardReadBlocking.main argc c f = ([Event.usage], 1)) := by
  intro argc h
  refine ⟨?_, ?_, ?_, ?_, ?_, ?_⟩
  · intro c m a s k
    unfold OffboardVelocity.main
    rw [if_neg h]
  · intro c f a t i s l n
    unfold OffboardVelocityWorking.main
    rw [if_pos h]
  · intro c f a s k
    unfold OffboardAttitudeControl.main
    rw [if_pos h]
  · intro c f v
    unfold OffboardVision.main
    rw [if_pos h]
  · intro c f
    unfold OffboardTelemetryHealth.main
    rw [if_pos h]
  · intro c f
    unfold OffboardReadBlocking.main
    rw [if_pos h]

/-- C8 witness: with three arguments and an otherwise-successful oracle,
each main prints usage and returns 1. -/
theorem c8_bad_argc_witness :
    OffboardVelocity.main 3 ConnectionResult.Success MocapResult.Success
      ActionResult.Success OffboardResult.Success ActionResult.Success =
      ([Event.usage], Outcome.ret 1) ∧
    OffboardReadBlocking.main 3 ConnectionResult.Success true = ([Event.usage], 1) :=
  ⟨(c8_bad_argc_prints_usage_and_returns_one 3 (by decide)).1 ConnectionResult.Success
      MocapResult.Success ActionResult.Success OffboardResult.Success ActionResult.Success,
   (c8_bad_argc_prints_usage_and_returns_one 3 (by decide)).2.2.2.2.2 ConnectionResult.Success
      true⟩

/-- C9: `get_system` returns an empty (`none`) system when no autopilot is
discovered within the 3-second timeout, and every `main` that uses it
(offboard_velocity_working, offboard_attitude_control, offboard_vision,
offboard_telemetry_health, offboard_read_blocking) checks the result and
returns 1 before instantiating any plugin, so a null system is never
used. -/
theorem c9_get_system_none_is_checked_before_plugins :
    get_system false =
      ([Event.log "Waiting to discover system...", Event.discoverAttempt false,
        Event.log "No autopilot found."], none) ∧
    (∀ (a t : ActionResult) (i : Bool) (s : OffboardResult) (l : ActionResult) (n : Nat),
      (OffboardVelocityWorking.main 2 ConnectionResult.Success false a t i s l n).snd = 1 ∧
      countIf Event.isPluginInit
        (OffboardVelocityWorking.main 2 ConnectionResult.Success false a t i s l n).fst = 0) ∧
    (∀ (a : ActionResult) (s : OffboardResult) (k : ActionResult),
      (OffboardAttitudeControl.main 2 ConnectionResult.Success false a s k).snd = 1 ∧
      countIf Event.isPluginInit
        (OffboardAttitudeControl.main 2 ConnectionResult.Success false a s k).fst = 0) ∧
    (∀ v : Nat → MocapResult,
      (OffboardVision.main 2 ConnectionResult.Success false v).snd = 1 ∧
      countIf Event.isPluginInit
        (OffboardVision.main 2 ConnectionResult.Success false v).fst = 0) ∧
    ((OffboardTelemetryHealth.main 2 ConnectionResult.Success false).snd = 1 ∧
      countIf Event.isPluginInit
        (OffboardTelemetryHealth.main 2 ConnectionResult.Success false).fst = 0) ∧
    ((OffboardReadBlocking.main 2 ConnectionResult.Success false).snd = 1 ∧
      countIf Event.isPluginInit
        (OffboardReadBlocking.main 2 ConnectionResult.Success false).fst = 0) :=
  ⟨rfl,
   fun _ _ _ _ _ _ => ⟨rfl, rfl⟩,
   fun _ _ _ => ⟨rfl, rfl⟩,
   fun _ => ⟨rfl, rfl⟩,
   ⟨rfl, rfl⟩,
   ⟨rfl, rfl⟩⟩

/-- C7: for every result the examples check (connection, discovery, arm,
takeoff, offboard start, land), a failing value deterministically
terminates the run with a failure status — a non-zero return from `main`
or `exit(EXIT_FAILURE)` — and the failed operation appears exactly once
in the trace (no retry). -/
theorem c7_checked_failures_terminate_without_retry :
    (∀ (c : ConnectionResult) (m : MocapResult) (a : ActionResult)
       (s : OffboardResult) (k : ActionResult), c ≠ ConnectionResult.Success →
      (OffboardVelocity.main 2 c m a s k).snd = Outcome.ret 1 ∧
      countIf Event.isConnect (OffboardVelocity.main 2 c m a s k).fst = 1) ∧
    (∀ (m : MocapResult) (a : ActionResult) (s : OffboardResult) (k : ActionResult),
      a ≠ ActionResult.Success →
      (OffboardVelocity.main 2 ConnectionResult.Success m a s k).snd = Outcome.ret 1 ∧
      countIf Event.isArm
        (OffboardVelocity.main 2 ConnectionResult.Success m a s k).fst = 1) ∧
    (∀ (m : MocapResult) (s : OffboardResult) (k : ActionResult),
      s ≠ OffboardResult.Success →
      (OffboardVelocity.main 2 ConnectionResult.Success m ActionResult.Success s k).snd =
        Outcome.exited 1 ∧
      countIf Event.isStart
        (OffboardVelocity.main 2 ConnectionResult.Success m ActionResult.Success s k).fst = 1) ∧
    (∀ (c : ConnectionResult) (f : Bool) (a t : ActionResult) (i : Bool)
       (s : OffboardResult) (l : ActionResult) (n : Nat), c ≠ ConnectionResult.Success →
      (OffboardVelocityWorking.main 2 c f a t i s l n).snd = 1 ∧
      countIf Event.isConnect (OffboardVelocityWorking.main 2 c f a t i s l n).fst = 1) ∧
    (∀ (a t : ActionResult) (i : Bool) (s : OffboardResult) (l : ActionResult) (n : Nat),
      (OffboardVelocityWorking.main 2 ConnectionResult.Success false a t i s l n).snd = 1 ∧
      countIf Event.isDiscover
        (OffboardVelocityWorking.main 2 ConnectionResult.Success false a t i s l n).fst = 1) ∧
    (∀ (a t : ActionResult) (i : Bool) (s : OffboardResult) (l : ActionResult) (n : Nat),
      a ≠ ActionResult.Success →
      (OffboardVelocityWorking.main 2 ConnectionResult.Success true a t i s l n).snd = 1 ∧
      countIf Event.isArm
        (OffboardVelocityWorking.main 2 ConnectionResult.Success true a t i s l n).fst = 1) ∧
    (∀ (t : ActionResult) (i : Bool) (s : OffboardResult) (l : ActionResult) (n : Nat),
      t ≠ ActionResult.Success →
      (OffboardVelocityWorking.main 2 ConnectionResult.Success true
        ActionResult.Success t i s l n).snd = 1 ∧
      countIf Event.isTakeoff
        (OffboardVelocityWorking.main 2 ConnectionResult.Success true
          ActionResult.Success t i s l n).fst = 1) ∧
    (∀ (s : OffboardResult) (l : ActionResult) (n : Nat),
      (OffboardVelocityWorking.main 2 ConnectionResult.Success true
        ActionResult.Success ActionResult.Success false s l n).snd = 1) ∧
    (∀ (s : OffboardResult) (l : ActionResult) (n : Nat), s ≠ OffboardResult.Success →
      (OffboardVelocityWorking.main 2 ConnectionResult.Success true
        ActionResult.Success ActionResult.Success true s l n).snd = 1 ∧
      countIf Event.isStart
        (OffboardVelocityWorking.main 2 ConnectionResult.Success true
          ActionResult.Success ActionResult.Success true s l n).fst = 1) ∧
    (∀ (l : ActionResult) (n : Nat), l ≠ ActionResult.Success →
      (OffboardVelocityWorking.main 2 ConnectionResult.Success true
        ActionResult.Success ActionResult.Success true OffboardResult.Success l n).snd = 1 ∧
      countIf Event.isLand
        (OffboardVelocityWorking.main 2 ConnectionResult.Success true
          ActionResult.Success ActionResult.Success true OffboardResult.Success l n).fst = 1) ∧
    (∀ (c : ConnectionResult) (f : Bool) (a : ActionResult) (s : OffboardResult)
       (k : ActionResult), c ≠ ConnectionResult.Success →
      (OffboardAttitudeControl.main 2 c f a s k).snd = 1 ∧
      countIf Event.isConnect (OffboardAttitudeControl.main 2 c f a s k).fst = 1) ∧
    (∀ (a : ActionResult) (s : OffboardResult) (k : ActionResult),
      a ≠ ActionResult.Success →
      (OffboardAttitudeControl.main 2 ConnectionResult.Success true a s k).snd = 1 ∧
      countIf Event.isArm
        (OffboardAttitudeControl.main 2 ConnectionResult.Success true a s k).fst = 1) ∧
    (∀ (s : OffboardResult) (k : ActionResult), s ≠ OffboardResult.Success →
      (OffboardAttitudeControl.main 2 ConnectionResult.Success true
        ActionResult.Success s k).snd = 1 ∧
      countIf Event.isStart
        (OffboardAttitudeControl.main 2 ConnectionResult.Success true
          ActionResult.Success s k).fst = 1) ∧
    (∀ (c : ConnectionResult) (f : Bool) (v : Nat → MocapResult),
      c ≠ ConnectionResult.Success →
      (OffboardVision.main 2 c f v).snd = 1 ∧
      countIf Event.isConnect (OffboardVision.main 2 c f v).fst = 1) ∧
    (∀ v : Nat → MocapResult,
      (OffboardVision.main 2 ConnectionResult.Success false v).snd = 1 ∧
      countIf Event.isDiscover
        (OffboardVision.main 2 ConnectionResult.Success false v).fst = 1) ∧
    (∀ c : ConnectionResult, c ≠ ConnectionResult.Success →
      (OffboardTelemetryHealth.main 2 c false).snd = 1 ∧
      (OffboardReadBlocking.main 2 c false).snd = 1) ∧
    ((OffboardTelemetryHealth.main 2 ConnectionResult.Success false).snd = 1 ∧
      (OffboardReadBlocking.main 2 ConnectionResult.Success false).snd = 1) := by
  refine ⟨?_, ?_, ?_, ?_, ?_, ?_, ?_, ?_, ?_, ?_, ?_, ?_, ?_, ?_, ?_, ?_, ?_⟩
  · intro c m a s k h
    cases c <;> first | exact absurd rfl h | exact ⟨rfl, rfl⟩
  · intro m a s k h
    cases a <;> first | exact absurd rfl h | exact ⟨rfl, rfl⟩
  · intro m s k h
    cases s <;> first | exact absurd rfl h | exact ⟨rfl, rfl⟩
  · intro c f a t i s l n h
    cases c <;> first | exact absurd rfl h | exact ⟨rfl, rfl⟩
  · intro a t i s l n
    exact ⟨rfl, rfl⟩
  · intro a t i s l n h
    cases a <;> first | exact absurd rfl h | exact ⟨rfl, rfl⟩
  · intro t i s l n h
    cases t <;> first | exact absurd rfl h | exact ⟨rfl, rfl⟩
  · intro s l n
    rfl
  · intro s l n h
    cases s <;> first | exact absurd rfl h | exact ⟨rfl, rfl⟩
  · intro l n h
    cases l <;> first | exact absurd rfl h | exact ⟨rfl, rfl⟩
  · intro c f a s k h
    cases c <;> first | exact absurd rfl h | exact ⟨rfl, rfl⟩
  · intro a s k h
    cases a <;> first | exact absurd rfl h | exact ⟨rfl, rfl⟩
  · intro s k h
    cases s <;> first | exact absurd rfl h | exact ⟨rfl, rfl⟩
  · intro c f v h
    cases c <;> first | exact absurd rfl h | exact ⟨rfl, rfl⟩
  · intro v
    exact ⟨rfl, rfl⟩
  · intro c h
    cases c <;> first | exact absurd rfl h | exact ⟨rfl, rfl⟩
  · exact ⟨rfl, rfl⟩

/-- C7 witness: a denied arm command in offboard_velocity_working.cpp
makes `main` return 1 after exactly one arm attempt. -/
theorem c7_checked_failures_witness :
    (OffboardVelocityWorking.main 2 ConnectionResult.Success true
      ActionResult.CommandDenied ActionResult.Success true OffboardResult.Success
      ActionResult.Success 0).snd = 1 :=
  (c7_checked_failures_terminate_without_retry.2.2.2.2.2.1 ActionResult.CommandDenied
    ActionResult.Success true OffboardResult.Success ActionResult.Success 0 (by decide)).1

/-- C5 counterexample: in `main` of src/offboard_velocity.cpp a failing
mocap send (`set_attitude_position_mocap` returning `NoSystem`) is only
printed: the program still arms and runs the whole sequence to a
successful exit, so not every Result-returning call reacts to failure
with a control-flow change. -/
theorem c5_counterexample_mocap_failure_only_logged :
    countIf isMocapSendFail
      (OffboardVelocity.main 2 ConnectionResult.Success MocapResult.NoSystem
        ActionResult.Success OffboardResult.Success ActionResult.Success).fst = 1 ∧
    countIf Event.isArm
      (OffboardVelocity.main 2 ConnectionResult.Success MocapResult.NoSystem
        ActionResult.Success OffboardResult.Success ActionResult.Success).fst = 1 ∧
    (OffboardVelocity.main 2 ConnectionResult.Success MocapResult.NoSystem
      ActionResult.Success OffboardResult.Success ActionResult.Success).snd =
      Outcome.ret 0 := by
  decide

/-- C5 amended: the results the examples check (connection, discovery,
arm, takeoff, offboard start, landing) all trigger an explicit
control-flow reaction on failure; but the mocap/vision send results
(`set_attitude_position_mocap` in src/offboard_velocity.cpp,
`set_vision_position_estimate` in src/offboard_vision.cpp) are only
printed — execution continues identically whatever they are — and the
`action.kill()` result is discarded. -/
theorem c5_amended_failures_react_except_mocap_vision_kill :
    (∀ (m : MocapResult) (k : ActionResult),
      (OffboardVelocity.main 2 ConnectionResult.Success m ActionResult.Success
        OffboardResult.Success k).snd = Outcome.ret 0 ∧
      countIf Event.isMocapSend
        (OffboardVelocity.main 2 ConnectionResult.Success m ActionResult.Success
          OffboardResult.Success k).fst = 1) ∧
    (∀ v : Nat → MocapResult,
      (OffboardVision.main 2 ConnectionResult.Success true v).snd = 0 ∧
      countIf Event.isVisionSend
        (OffboardVision.main 2 ConnectionResult.Success true v).fst = 100) ∧
    ((OffboardVision.main 2 ConnectionResult.Success true
        (fun _ => MocapResult.NoSystem)).snd = 0 ∧
      countIf isVisionSendFail
        (OffboardVision.main 2 ConnectionResult.Success true
          (fun _ => MocapResult.NoSystem)).fst = 100) ∧
    (∀ c : ConnectionResult, c ≠ ConnectionResult.Success →
      (∀ (m : MocapResult) (a : ActionResult) (s : OffboardResult) (k : ActionResult),
        (OffboardVelocity.main 2 c m a s k).snd = Outcome.ret 1) ∧
      (∀ (f : Bool) (a t : ActionResult) (i : Bool) (s : OffboardResult)
         (l : ActionResult) (n : Nat),
        (OffboardVelocityWorking.main 2 c f a t i s l n).snd = 1) ∧
      (∀ (f : Bool) (a : ActionResult) (s : OffboardResult) (k : ActionResult),
        (OffboardAttitudeControl.main 2 c f a s k).snd = 1) ∧
      (∀ v : Nat → MocapResult, (OffboardVision.main 2 c true v).snd = 1) ∧
      (OffboardTelemetryHealth.main 2 c true).snd = 1 ∧
      (OffboardReadBlocking.main 2 c true).snd = 1) ∧
    (∀ (a : ActionResult), a ≠ ActionResult.Success →
      (∀ (m : MocapResult) (s : OffboardResult) (k : ActionResult),
        (OffboardVelocity.main 2 ConnectionResult.Success m a s k).snd = Outcome.ret 1) ∧
      (∀ (t : ActionResult) (i : Bool) (s : OffboardResult) (l : ActionResult) (n : Nat),
        (OffboardVelocityWorking.main 2 ConnectionResult.Success true a t i s l n).snd = 1) ∧
      (∀ (s : OffboardResult) (k : ActionResult),
        (OffboardAttitudeControl.main 2 ConnectionResult.Success true a s k).snd = 1)) ∧
    (∀ (t : ActionResult) (i : Bool) (s : OffboardResult) (l : ActionResult) (n : Nat),
      t ≠ ActionResult.Success →
      (OffboardVelocityWorking.main 2 ConnectionResult.Success true
        ActionResult.Success t i s l n).snd = 1) ∧
    (∀ (s : OffboardResult) (l : ActionResult) (n : Nat),
      (OffboardVelocityWorking.main 2 ConnectionResult.Success true
        ActionResult.Success ActionResult.Success false s l n).snd = 1) ∧
    (∀ (s : OffboardResult), s ≠ OffboardResult.Success →
      (∀ (m : MocapResult) (k : ActionResult),
        (OffboardVelocity.main 2 ConnectionResult.Success m ActionResult.Success s k).snd =
          Outcome.exited 1) ∧
      (∀ (l : ActionResult) (n : Nat),
        (OffboardVelocityWorking.main 2 ConnectionResult.Success true
          ActionResult.Success ActionResult.Success true s l n).snd = 1) ∧
      (∀ k : ActionResult,
        (OffboardAttitudeControl.main 2 ConnectionResult.Success true
          ActionResult.Success s k).snd = 1)) ∧
    (∀ (l : ActionResult) (n : Nat), l ≠ ActionResult.Success →
      (OffboardVelocityWorking.main 2 ConnectionResult.Success true
        ActionResult.Success ActionResult.Success true OffboardResult.Success l n).snd = 1) ∧
    (∀ k k' : ActionResult,
      (OffboardVelocity.main 2 ConnectionResult.Success MocapResult.Success
        ActionResult.Success OffboardResult.Success k).snd =
      (OffboardVelocity.main 2 ConnectionResult.Success MocapResult.Success
        ActionResult.Success OffboardResult.Success k').snd ∧
      countIf Event.isKill
        (OffboardVelocity.main 2 ConnectionResult.Success MocapResult.Success
          ActionResult.Success OffboardResult.Success k).fst = 1) := by
  refine ⟨by decide, ?_, ?_, ?_, ?_, ?_, ?_, ?_, ?_, by decide⟩
  · intro v
    refine ⟨rfl, ?_⟩
    have hf : countIf Event.isVisionSend
        ((List.range 100).flatMap (fun i =>
          [Event.visionSend OffboardVision.vision_msg (v i), Event.log "Position sent",
           Event.sleep 30])) = (List.range 100).length :=
      countIf_flatMap_ones _ _ _ (fun _ => rfl)
    show countIf _ (_ ++ _) = 100
    rw [countIf_append, countIf_append, countIf_append, countIf_append, hf,
      List.length_range]
    decide
  · refine ⟨rfl, ?_⟩
    have hf : countIf isVisionSendFail
        ((List.range 100).flatMap (fun i =>
          [Event.visionSend OffboardVision.vision_msg
             ((fun _ => MocapResult.NoSystem) i),
           Event.log "Position sent", Event.sleep 30])) = (List.range 100).length :=
      countIf_flatMap_ones _ _ _ (fun _ => rfl)
    show countIf _ (_ ++ _) = 100
    rw [countIf_append, countIf_append, countIf_append, countIf_append, hf,
      List.length_range]
    decide
  · intro c h
    refine ⟨?_, ?_, ?_, ?_, ?_, ?_⟩
    · intro m a s k
      cases c <;> first | exact absurd rfl h | rfl
    · intro f a t i s l n
      cases c <;> first | exact absurd rfl h | rfl
    · intro f a s k
      cases c <;> first | exact absurd rfl h | rfl
    · intro v
      cases c <;> first | exact absurd rfl h | rfl
    · cases c <;> first | exact absurd rfl h | rfl
    · cases c <;> first | exact absurd rfl h | rfl
  · intro a h
    refine ⟨?_, ?_, ?_⟩
    · intro m s k
      cases a <;> first | exact absurd rfl h | rfl
    · intro t i s l n
      cases a <;> first | exact absurd rfl h | rfl
    · intro s k
      cases a <;> first | exact absurd rfl h | rfl
  · intro t i s l n h
    cases t <;> first | exact absurd rfl h | rfl
  · intro s l n
    rfl
  · intro s h
    refine ⟨?_, ?_, ?_⟩
    · intro m k
      cases s <;> first | exact absurd rfl h | rfl
    · intro l n
      cases s <;> first | exact absurd rfl h | rfl
    · intro k
      cases s <;> first | exact absurd rfl h | rfl
  · intro l n h
    cases l <;> first | exact absurd rfl h | rfl

/-- C5 witness: the amended theorem applied to a `Timeout` connection
result: every example main returns 1. -/
theorem c5_amended_witness :
    (OffboardReadBlocking.main 2 ConnectionResult.Timeout true).snd = 1 :=
  ((c5_amended_failures_react_except_mocap_vision_kill.2.2.2.1 ConnectionResult.Timeout
    (by decide)).2.2.2.2.2)

set_option maxRecDepth 20000 in
/-- C4 counterexample: `main` of src/offboard_vision.cpp performs its
whole activity (100 vision-estimate sends) and exits successfully without
ever calling `action.arm()` — and no example ever calls a disarm — so it
is not true that every example arms before its activity and disarms
after. -/
theorem c4_counterexample_vision_never_arms :
    countIf Event.isArm
      (OffboardVision.main 2 ConnectionResult.Success true
        (fun _ => MocapResult.Success)).fst = 0 ∧
    countIf Event.isVisionSend
      (OffboardVision.main 2 ConnectionResult.Success true
        (fun _ => MocapResult.Success)).fst = 100 ∧
    (OffboardVision.main 2 ConnectionResult.Success true
      (fun _ => MocapResult.Success)).snd = 0 := by
  decide

set_option maxRecDepth 20000 in
/-- C4 amended: the three offboard-control examples
(src/offboard_velocity.cpp, src/offboard_velocity_working.cpp,
src/offboard_attitude_control.cpp) arm the vehicle before their first
setpoint, for every oracle; the vision, telemetry-health and
blocking-read examples never call arm; and no example calls an explicit
disarm — offboard_velocity.cpp and offboard_attitude_control.cpp kill the
motors instead, while offboard_velocity_working.cpp lands and relies on
auto-disarming. -/
theorem c4_amended_only_offboard_examples_arm :
    (∀ (argc : Nat) (c : ConnectionResult) (m : MocapResult) (a : ActionResult)
       (s : OffboardResult) (k : ActionResult),
      armBeforeSetpoints (OffboardVelocity.main argc c m a s k).fst = true) ∧
    (∀ (argc : Nat) (c : ConnectionResult) (f : Bool) (a t : ActionResult) (i : Bool)
       (s : OffboardResult) (l : ActionResult) (n : Nat),
      armBeforeSetpoints (OffboardVelocityWorking.main argc c f a t i s l n).fst = true) ∧
    (∀ (argc : Nat) (c : ConnectionResult) (f : Bool) (a : ActionResult)
       (s : OffboardResult) (k : ActionResult),
      armBeforeSetpoints (OffboardAttitudeControl.main argc c f a s k).fst = true) ∧
    (∀ (argc : Nat) (c : ConnectionResult) (f : Bool) (v : Nat → MocapResult),
      countIf Event.isArm (OffboardVision.main argc c f v).fst = 0) ∧
    (∀ (argc : Nat) (c : ConnectionResult) (f : Bool),
      countIf Event.isArm (OffboardTelemetryHealth.main argc c f).fst = 0 ∧
      countIf Event.isArm (OffboardReadBlocking.main argc c f).fst = 0) ∧
    (countIf Event.isDisarm
        (OffboardVelocity.main 2 ConnectionResult.Success MocapResult.Success
          ActionResult.Success OffboardResult.Success ActionResult.Success).fst = 0 ∧
      countIf Event.isKill
        (OffboardVelocity.main 2 ConnectionResult.Success MocapResult.Success
          ActionResult.Success OffboardResult.Success ActionResult.Success).fst = 1) ∧
    (countIf Event.isDisarm
        (OffboardVelocityWorking.main 2 ConnectionResult.Success true
          ActionResult.Success ActionResult.Success true OffboardResult.Success
          ActionResult.Success 2).fst = 0 ∧
      countIf Event.isLand
        (OffboardVelocityWorking.main 2 ConnectionResult.Success true
          ActionResult.Success ActionResult.Success true OffboardResult.Success
          ActionResult.Success 2).fst = 1) ∧
    (countIf Event.isDisarm
        (OffboardAttitudeControl.main 2 ConnectionResult.Success true
          ActionResult.Success OffboardResult.Success ActionResult.Success).fst = 0 ∧
      countIf Event.isKill
        (OffboardAttitudeControl.main 2 ConnectionResult.Success true
          ActionResult.Success OffboardResult.Success ActionResult.Success).fst = 1) ∧
    (countIf Event.isDisarm
        (OffboardVision.main 2 ConnectionResult.Success true
          (fun _ => MocapResult.Success)).fst = 0 ∧
      countIf Event.isDisarm
        (OffboardTelemetryHealth.main 2 ConnectionResult.Success true).fst = 0 ∧
      countIf Event.isDisarm
        (OffboardReadBlocking.main 2 ConnectionResult.Success true).fst = 0) := by
  refine ⟨?_, ?_, ?_, ?_, ?_, by decide, by decide, by decide, by decide⟩
  · intro argc c m a s k
    by_cases h2 : argc = 2
    · subst h2
      cases c <;> rfl
    · unfold OffboardVelocity.main
      rw [if_neg h2]
      rfl
  · intro argc c f a t i s l n
    by_cases h2 : argc = 2
    · subst h2
      cases c <;> first | rfl | (cases f <;> rfl)
    · unfold OffboardVelocityWorking.main
      rw [if_pos h2]
      rfl
  · intro argc c f a s k
    by_cases h2 : argc = 2
    · subst h2
      cases c <;> first | rfl | (cases f <;> rfl)
    · unfold OffboardAttitudeControl.main
      rw [if_pos h2]
      rfl
  · intro argc c f v
    by_cases h2 : argc = 2
    · subst h2
      cases c with
      | Success =>
        cases f with
        | false => rfl
        | true =>
          have hf : countIf Event.isArm
              ((List.range 100).flatMap (fun i =>
                [Event.visionSend OffboardVision.vision_msg (v i),
                 Event.log "Position sent", Event.sleep 30])) = 0 :=
            countIf_flatMap_zero _ _ _ (fun _ => rfl)
          show countIf _ (_ ++ _) = 0
          rw [countIf_append, countIf_append, countIf_append, countIf_append, hf]
          decide
      | Timeout => rfl
      | SocketError => rfl
    · unfold OffboardVision.main
      rw [if_pos h2]
      rfl
  · intro argc c f
    by_cases h2 : argc = 2
    · subst h2
      constructor
      · cases c <;> first | rfl | (cases f <;> rfl)
      · cases c <;> first | rfl | (cases f <;> decide)
    · constructor
      · unfold OffboardTelemetryHealth.main
        rw [if_pos h2]
        rfl
      · unfold OffboardReadBlocking.main
        rw [if_pos h2]
        rfl
